import Mathlib

/-!
Shallow embedding of `src/frontend/Cv-Maker/src/CV.jsx` (the `CVMaker`
component of the Intelligent-CV-Maker repository).

The component keeps form data, fetched GitHub data, an error string and a
`showCV` flag in React state.  We embed that state as a structure and each
event handler (`handleChange`, `fetchGitHubData`, `generateCV`) as a pure
state-transition function.  The outcomes of the two `fetch` calls are
supplied as explicit oracle values (`LookupOutcome`, `GenOutcome`), and each
transition additionally returns the list of network requests it issued, in
order, so that "no network request is made" and sequencing properties are
statable.  The JSX output of the preview branch is embedded as `renderCV`,
a pure mapping from state to the displayed text fields.
-/

/-- The `formData` record of `CVMaker` (nine plain text fields). -/
structure FormData where
  name : String
  email : String
  phone : String
  education : String
  university : String
  graduation : String
  description : String
  githubUsername : String
  skills : String
deriving DecidableEq, Repr

/-- The initial `formData` state: every field is the empty string. -/
def initialFormData : FormData :=
  ⟨"", "", "", "", "", "", "", "", ""⟩

/-- The `user_data` part of the lookup response (used by the GITHUB STATS
section: `public_repos`, `followers`, `created_at`). -/
structure UserData where
  public_repos : Nat
  followers : Nat
  created_at : String
deriving DecidableEq, Repr

/-- One element of `top_repos` in the lookup response, as consumed by the
PROJECTS section of the preview. -/
structure Project where
  name : String
  created_at : String
  updated_at : String
  language : Option String
  enhanced_description : String
  homepage : Option String
  html_url : String
deriving DecidableEq, Repr

/-- The parsed JSON body of a successful
`GET /api/github-profile?username=...` response:
`{ user_data, top_repos, languages }`.  The `languages` object is embedded
as an association list in JS enumeration order (`Object.entries` order),
with numeric weights as integers. -/
structure GitHubResult where
  user_data : UserData
  top_repos : List Project
  languages : List (String × Int)
deriving DecidableEq, Repr

/-- The React state of `CVMaker`: `formData`, `githubData`, `topProjects`,
`languages`, `isLoading`, `error`, `showCV`. -/
structure ComponentState where
  formData : FormData
  githubData : Option UserData
  topProjects : List Project
  languages : List (String × Int)
  isLoading : Bool
  error : String
  showCV : Bool
deriving DecidableEq, Repr

/-- The initial component state from the `useState` initialisers. -/
def initialState : ComponentState :=
  { formData := initialFormData
    githubData := none
    topProjects := []
    languages := []
    isLoading := false
    error := ""
    showCV := false }

/-- The nine form field names that occur as `name` attributes of the
rendered inputs (the possible values of `e.target.name`). -/
inductive FormField where
  | name | email | phone | education | university
  | graduation | description | githubUsername | skills
deriving DecidableEq, Repr

/-- Read a field of `formData` by name. -/
def FormData.get (f : FormData) : FormField → String
  | .name => f.name
  | .email => f.email
  | .phone => f.phone
  | .education => f.education
  | .university => f.university
  | .graduation => f.graduation
  | .description => f.description
  | .githubUsername => f.githubUsername
  | .skills => f.skills

/-- The spread-update `{...formData, [name]: value}` of `handleChange`. -/
def FormData.set (f : FormData) : FormField → String → FormData
  | .name, v => { f with name := v }
  | .email, v => { f with email := v }
  | .phone, v => { f with phone := v }
  | .education, v => { f with education := v }
  | .university, v => { f with university := v }
  | .graduation, v => { f with graduation := v }
  | .description, v => { f with description := v }
  | .githubUsername, v => { f with githubUsername := v }
  | .skills, v => { f with skills := v }

/-- `handleChange`: on an input event for field `n` with value `v`,
replace `formData` by `{...formData, [n]: v}`; no other state is touched. -/
def handleChange (s : ComponentState) (n : FormField) (v : String) : ComponentState :=
  { s with formData := s.formData.set n v }

/-- JS `a || b` on the optional string field of a JSON error body:
a missing field and the empty string are both falsy, so they select the
fallback. -/
def jsOr (a : Option String) (b : String) : String :=
  match a with
  | some s => if s = "" then b else s
  | none => b

/-- Outcome of the profile-lookup `fetch` as seen by `fetchGitHubData`:
an ok response with parsed data; a non-ok response whose JSON body may
carry an `error` field; or a rejection (network failure / JSON parse
failure) carrying the thrown error's `message`. -/
inductive LookupOutcome where
  | ok (d : GitHubResult)
  | httpError (errField : Option String)
  | netError (msg : String)
deriving DecidableEq, Repr

/-- Outcome of the `POST /api/generate-cv` `fetch` as seen by `generateCV`. -/
inductive GenOutcome where
  | ok
  | httpError (errField : Option String)
  | netError (msg : String)
deriving DecidableEq, Repr

/-- A network request issued by the component. -/
inductive Request where
  | profileLookup (username : String)
  | generateDoc (personalInfo : FormData) (githubData : GitHubResult)
deriving DecidableEq, Repr

/-- `fetchGitHubData`: validates the username, then performs the lookup.
Returns the new state, the value the `async` function returns
(`data` on success, `undefined`/`null` on the early return and in the
`catch`, embedded as `Option GitHubResult`), and the requests issued. -/
def fetchGitHubData (s : ComponentState) (o : LookupOutcome) :
    ComponentState × Option GitHubResult × List Request :=
  if s.formData.githubUsername = "" then
    ({ s with error := "Please enter a GitHub username" }, none, [])
  else
    let s1 := { s with isLoading := true, error := "" }
    let req := Request.profileLookup s.formData.githubUsername
    match o with
    | .ok d =>
        ({ s1 with
            githubData := some d.user_data
            topProjects := d.top_repos
            languages := d.languages
            isLoading := false }, some d, [req])
    | .httpError e =>
        ({ s1 with error := jsOr e "Failed to fetch GitHub data", isLoading := false },
          none, [req])
    | .netError m =>
        ({ s1 with error := m, isLoading := false }, none, [req])

/-- `generateCV`: required-field validation, then the lookup via
`fetchGitHubData`, then (only if the lookup returned data) the
document-generation POST.  Returns the new state and the requests issued,
in order. -/
def generateCV (s : ComponentState) (lo : LookupOutcome) (go : GenOutcome) :
    ComponentState × List Request :=
  if s.formData.name = "" ∨ s.formData.email = "" ∨
      s.formData.education = "" ∨ s.formData.university = "" then
    ({ s with error := "Please fill in all required fields" }, [])
  else
    match fetchGitHubData s lo with
    | (s1, none, reqs) => (s1, reqs)
    | (s1, some d, reqs) =>
        let req := Request.generateDoc s.formData d
        match go with
        | .ok => ({ s1 with showCV := true }, reqs ++ [req])
        | .httpError e =>
            ({ s1 with error := jsOr e "Failed to generate CV" }, reqs ++ [req])
        | .netError m => ({ s1 with error := m }, reqs ++ [req])

/-- Stable insertion of one entry into a weight-descending list: the entry
is placed after every entry of strictly larger weight and before the first
entry of smaller-or-equal weight. -/
def insertLang (x : String × Int) : List (String × Int) → List (String × Int)
  | [] => [x]
  | y :: ys => if x.2 < y.2 then y :: insertLang x ys else x :: y :: ys

/-- The entries of the `languages` object sorted by
`Array.prototype.sort((a, b) => b[1] - a[1])`: non-increasing weight, ties
kept in enumeration order.  `Array.prototype.sort` is specified to be
stable, and the output of a stable sort under a fixed total preorder is
unique, so any stable weight-descending sort embeds it; we use a
structurally recursive insertion sort (`foldr` of `insertLang`), which is
stable and weight-descending (proved below). -/
def sortedEntries (languages : List (String × Int)) : List (String × Int) :=
  languages.foldr insertLang []

/-- `getTopLanguages`: sort the entries by descending weight, take the
first 5, keep the names. -/
def getTopLanguages (languages : List (String × Int)) : List String :=
  ((sortedEntries languages).take 5).map Prod.fst

/-- The text fields of the preview document (the `showCV` branch of the
JSX), one field per interpolated expression. -/
structure CVView where
  headerName : String
  email : String
  phone : String
  githubUsername : String
  summary : String
  university : String
  education : String
  graduation : String
  topLanguages : List String
  additionalSkills : String
  projects : List Project
  publicRepos : Option Nat
  followers : Option Nat
deriving DecidableEq, Repr

/-- `renderCV`: the pure mapping from component state to the preview
document's displayed fields. -/
def renderCV (s : ComponentState) : CVView :=
  { headerName := s.formData.name
    email := s.formData.email
    phone := s.formData.phone
    githubUsername := s.formData.githubUsername
    summary := s.formData.description
    university := s.formData.university
    education := s.formData.education
    graduation := s.formData.graduation
    topLanguages := getTopLanguages s.languages
    additionalSkills := s.formData.skills
    projects := s.topProjects
    publicRepos := s.githubData.map UserData.public_repos
    followers := s.githubData.map UserData.followers }

/-- A user-interface event of the component.  `change` and `generate` are
only available in the form phase (`showCV = false`), `back` only in the
preview phase, matching which buttons and inputs are rendered. -/
inductive Event where
  | change (n : FormField) (v : String)
  | generate (lo : LookupOutcome) (go : GenOutcome)
  | back
deriving DecidableEq, Repr

/-- Reachability of a component state under a trace of events (most recent
event first), starting from `initialState`. -/
inductive Reachable : List Event → ComponentState → Prop where
  | init : Reachable [] initialState
  | change {tr s n v} : Reachable tr s → s.showCV = false →
      Reachable (Event.change n v :: tr) (handleChange s n v)
  | generate {tr s lo go} : Reachable tr s → s.showCV = false →
      Reachable (Event.generate lo go :: tr) (generateCV s lo go).1
  | back {tr s} : Reachable tr s → s.showCV = true →
      Reachable (Event.back :: tr) { s with showCV := false }

/-- The language mapping of the spec's worked example, in enumeration
order: `{Python: 10, JS: 30, Go: 5, Rust: 30, C: 1, Java: 2}`. -/
def demoLanguages : List (String × Int) :=
  [("Python", 10), ("JS", 30), ("Go", 5), ("Rust", 30), ("C", 1), ("Java", 2)]

/-- Membership in an insertion: exactly the inserted entry and the old
entries. -/
theorem mem_insertLang {a x : String × Int} {l : List (String × Int)} :
    a ∈ insertLang x l ↔ a = x ∨ a ∈ l := by
  induction l with
  | nil => simp [insertLang]
  | cons y ys ih =>
      by_cases h : x.2 < y.2
      · simp only [insertLang, if_pos h, List.mem_cons, ih]
        tauto
      · simp only [insertLang, if_neg h, List.mem_cons]

/-- Inserting into a weight-descending list keeps it weight-descending. -/
theorem pairwise_insertLang {x : String × Int} {l : List (String × Int)}
    (h : l.Pairwise (fun a b => b.2 ≤ a.2)) :
    (insertLang x l).Pairwise (fun a b => b.2 ≤ a.2) := by
  induction l with
  | nil => simp [insertLang]
  | cons y ys ih =>
      rcases h with _ | ⟨hy, hys⟩
      by_cases hxy : x.2 < y.2
      · simp only [insertLang, if_pos hxy]
        refine List.Pairwise.cons ?_ (ih hys)
        intro a ha
        rcases mem_insertLang.mp ha with rfl | ha
        · exact le_of_lt hxy
        · exact hy a ha
      · simp only [insertLang, if_neg hxy]
        refine List.Pairwise.cons ?_ (List.Pairwise.cons hy hys)
        intro a ha
        rcases List.mem_cons.mp ha with rfl | ha
        · exact le_of_not_lt hxy
        · exact le_trans (hy a ha) (le_of_not_lt hxy)

/-- The sorted entries are in non-increasing weight order. -/
theorem sortedEntries_pairwise (langs : List (String × Int)) :
    (sortedEntries langs).Pairwise (fun a b => b.2 ≤ a.2) := by
  induction langs with
  | nil => simp [sortedEntries]
  | cons x xs ih => exact pairwise_insertLang ih

/-- Filtering by a fixed weight commutes with a stable insertion. -/
theorem filter_insertLang (x : String × Int) (l : List (String × Int)) (w : Int) :
    (insertLang x l).filter (fun p => p.2 = w) =
      if x.2 = w then x :: l.filter (fun p => p.2 = w)
      else l.filter (fun p => p.2 = w) := by
  induction l with
  | nil => by_cases h : x.2 = w <;> simp [insertLang, h]
  | cons y ys ih =>
      by_cases hxy : x.2 < y.2
      · simp only [insertLang, if_pos hxy]
        by_cases hx : x.2 = w
        · have hy : ¬ y.2 = w := by omega
          simp [List.filter_cons, hx, hy, ih]
        · by_cases hy : y.2 = w <;> simp [List.filter_cons, hx, hy, ih]
      · simp only [insertLang, if_neg hxy]
        by_cases hx : x.2 = w <;> simp [List.filter_cons, hx]

/-- Stability of the sort: for every weight, the entries of that weight
appear in the sorted list exactly as they are enumerated in the mapping. -/
theorem sortedEntries_stable (langs : List (String × Int)) (w : Int) :
    (sortedEntries langs).filter (fun p => p.2 = w) =
      langs.filter (fun p => p.2 = w) := by
  induction langs with
  | nil => rfl
  | cons x xs ih =>
      show (insertLang x (sortedEntries xs)).filter _ = _
      rw [filter_insertLang, List.filter_cons, ih]
      by_cases hx : x.2 = w <;> simp [hx]

/-- C1: `getTopLanguages` returns at most 5 names, sorted by descending
weight (the underlying sorted entries are in non-increasing weight order
and the result is their name projection); the empty mapping yields the
empty sequence; on the spec's example mapping the result has length
exactly 5, the corresponding entries are sorted descending, and the
result does not contain `C`. -/
theorem getTopLanguages_spec :
    (∀ langs : List (String × Int), (getTopLanguages langs).length ≤ 5) ∧
    (∀ langs : List (String × Int),
      getTopLanguages langs = ((sortedEntries langs).take 5).map Prod.fst ∧
      ((sortedEntries langs).take 5).Pairwise (fun a b => b.2 ≤ a.2)) ∧
    getTopLanguages [] = [] ∧
    (getTopLanguages demoLanguages).length = 5 ∧
    ((sortedEntries demoLanguages).take 5).Pairwise (fun a b => b.2 ≤ a.2) ∧
    "C" ∉ getTopLanguages demoLanguages := by
  refine ⟨?_, ?_, by decide, by decide, by decide, by decide⟩
  · intro langs
    calc (getTopLanguages langs).length
        = ((sortedEntries langs).take 5).length := by
          simp [getTopLanguages]
      _ ≤ 5 := List.length_take_le 5 _
  · intro langs
    exact ⟨rfl, (sortedEntries_pairwise langs).sublist (List.take_sublist 5 _)⟩

/-- C9: the sort inside `getTopLanguages` is stable: for every weight, the
entries of that weight occur in the sorted entry list exactly in the order
in which they are enumerated from the mapping, and the result is the name
projection of the first five sorted entries; in particular, on the spec's
example the tied `JS` and `Rust` (both weight 30) appear in enumeration
order. -/
theorem getTopLanguages_stable :
    (∀ (langs : List (String × Int)) (w : Int),
      (sortedEntries langs).filter (fun p => p.2 = w) =
        langs.filter (fun p => p.2 = w)) ∧
    (∀ langs : List (String × Int),
      getTopLanguages langs = ((sortedEntries langs).take 5).map Prod.fst) ∧
    getTopLanguages demoLanguages = ["JS", "Rust", "Python", "Go", "Java"] := by
  exact ⟨sortedEntries_stable, fun _ => rfl, by decide⟩

/-- A filled form whose required fields and username are non-empty, used
for concrete instantiations. -/
def filledForm : FormData :=
  { name := "Ada Lovelace"
    email := "ada@example.com"
    phone := "123"
    education := "BSc Computer Science"
    university := "Cambridge"
    graduation := "2025"
    description := "Fresher"
    githubUsername := "ada"
    skills := "Teamwork" }

/-- A form-phase component state whose required fields are filled. -/
def filledState : ComponentState :=
  { initialState with formData := filledForm }

/-- A concrete `user_data` payload. -/
def demoUser : UserData :=
  { public_repos := 7, followers := 3, created_at := "2020-01-01T00:00:00Z" }

/-- A concrete successful lookup response. -/
def demoResult : GitHubResult :=
  { user_data := demoUser
    top_repos := [{ name := "cv-maker"
                    created_at := "2021-02-01T00:00:00Z"
                    updated_at := "2022-03-01T00:00:00Z"
                    language := some "Python"
                    enhanced_description := "A CV maker"
                    homepage := none
                    html_url := "https://github.com/ada/cv-maker" }]
    languages := demoLanguages }

/-- C10: `handleChange` for field `n` and value `v` sets exactly the
field `n` of `formData` to `v`, leaves every other form field unchanged,
and leaves `githubData`, `topProjects`, `languages`, `isLoading`,
`error` and `showCV` unchanged. -/
theorem handleChange_spec (s : ComponentState) (n : FormField) (v : String) :
    (handleChange s n v).formData.get n = v ∧
    (∀ m : FormField, m ≠ n →
      (handleChange s n v).formData.get m = s.formData.get m) ∧
    (handleChange s n v).githubData = s.githubData ∧
    (handleChange s n v).topProjects = s.topProjects ∧
    (handleChange s n v).languages = s.languages ∧
    (handleChange s n v).isLoading = s.isLoading ∧
    (handleChange s n v).error = s.error ∧
    (handleChange s n v).showCV = s.showCV := by
  refine ⟨?_, ?_, rfl, rfl, rfl, rfl, rfl, rfl⟩
  · cases n <;> rfl
  · intro m hm
    cases n <;> cases m <;> first | rfl | exact absurd rfl hm

/-- Witness for C10: changing the name field of the initial state leaves
the email field unchanged. -/
theorem handleChange_spec_witness :
    (handleChange initialState FormField.name "Ada").formData.get
        FormField.email =
      initialState.formData.get FormField.email :=
  (handleChange_spec initialState FormField.name "Ada").2.1 FormField.email
    (by decide)

/-- C4: when any of the required fields name, email, education,
university is blank, `generateCV` only sets the validation error message
and issues no network request at all. -/
theorem generateCV_validation_spec (s : ComponentState) (lo : LookupOutcome)
    (go : GenOutcome)
    (h : s.formData.name = "" ∨ s.formData.email = "" ∨
      s.formData.education = "" ∨ s.formData.university = "") :
    (generateCV s lo go).1 =
      { s with error := "Please fill in all required fields" } ∧
    (generateCV s lo go).2 = [] := by
  simp only [generateCV]
  rw [if_pos h]
  exact ⟨rfl, rfl⟩

/-- Witness for C4: the all-blank initial state short-circuits with no
request, whatever the oracle outcomes would have been. -/
theorem generateCV_validation_spec_witness :
    (generateCV initialState (LookupOutcome.netError "offline")
        GenOutcome.ok).1 =
      { initialState with error := "Please fill in all required fields" } ∧
    (generateCV initialState (LookupOutcome.netError "offline")
        GenOutcome.ok).2 = [] :=
  generateCV_validation_spec initialState (LookupOutcome.netError "offline")
    GenOutcome.ok (Or.inl rfl)

/-- C5: with an empty GitHub username, `fetchGitHubData` sets the
validation message, issues no request, and returns no data, leaving the
rest of the state unchanged. -/
theorem fetchGitHubData_empty_username_spec (s : ComponentState)
    (o : LookupOutcome) (h : s.formData.githubUsername = "") :
    fetchGitHubData s o =
      ({ s with error := "Please enter a GitHub username" }, none, []) := by
  simp only [fetchGitHubData]
  rw [if_pos h]

/-- Witness for C5: the initial state has an empty username and the
lookup short-circuits even when the network would have answered. -/
theorem fetchGitHubData_empty_username_spec_witness :
    fetchGitHubData initialState (LookupOutcome.ok demoResult) =
      ({ initialState with error := "Please enter a GitHub username" },
        none, []) :=
  fetchGitHubData_empty_username_spec initialState
    (LookupOutcome.ok demoResult) rfl

/-- Counterexample to C6 as stated: on a network failure the stored
message is the thrown error's message (for example the browser text
"Failed to fetch"), not the fixed fallback string; and when the response
body carries the empty string as its `error` field, the stored message is
the fallback, not that server-provided string. -/
theorem fetchGitHubData_error_counterexample :
    (fetchGitHubData filledState
        (LookupOutcome.netError "Failed to fetch")).1.showCV = false ∧
    (fetchGitHubData filledState
        (LookupOutcome.netError "Failed to fetch")).1.error ≠
      "Failed to fetch GitHub data" ∧
    (fetchGitHubData filledState
        (LookupOutcome.httpError (some ""))).1.error ≠ "" := by
  decide

/-- C6 (amended): a failed lookup leaves `showCV` unchanged (so the
component stays in the editing state); on a non-success HTTP response the
stored error message is the server-provided `error` string when it is
present and non-empty, and otherwise the fixed fallback
"Failed to fetch GitHub data"; on a network failure it is the thrown
error's message. -/
theorem fetchGitHubData_failure_spec (s : ComponentState)
    (h : s.formData.githubUsername ≠ "") :
    (∀ msg, msg ≠ "" →
      (fetchGitHubData s (LookupOutcome.httpError (some msg))).1.error =
        msg) ∧
    (fetchGitHubData s (LookupOutcome.httpError (some ""))).1.error =
      "Failed to fetch GitHub data" ∧
    (fetchGitHubData s (LookupOutcome.httpError none)).1.error =
      "Failed to fetch GitHub data" ∧
    (∀ m, (fetchGitHubData s (LookupOutcome.netError m)).1.error = m) ∧
    (∀ o, (fetchGitHubData s o).1.showCV = s.showCV) := by
  refine ⟨?_, ?_, ?_, ?_, ?_⟩
  · intro msg hmsg
    simp [fetchGitHubData, h, jsOr, hmsg]
  · simp [fetchGitHubData, h, jsOr]
  · simp [fetchGitHubData, h, jsOr]
  · intro m
    simp [fetchGitHubData, h]
  · intro o
    cases o <;> simp [fetchGitHubData, h]

/-- Witness for C6 (amended): a concrete non-success response with a
non-empty server message stores exactly that message. -/
theorem fetchGitHubData_failure_spec_witness :
    (fetchGitHubData filledState
        (LookupOutcome.httpError (some "User not found"))).1.error =
      "User not found" :=
  (fetchGitHubData_failure_spec filledState (by decide)).1 "User not found"
    (by decide)

/-- Counterexample to C2 as stated: an attempt that fails at the
document-generation call does keep `showCV` false and sets the error
message, but it retains `githubData`, `topProjects` and `languages` from
the partially completed attempt (here `languages` changes from the empty
mapping to the fetched one). -/
theorem generateCV_failure_counterexample :
    (generateCV filledState (LookupOutcome.ok demoResult)
        (GenOutcome.httpError (some "generation failed"))).1.showCV =
      false ∧
    (generateCV filledState (LookupOutcome.ok demoResult)
        (GenOutcome.httpError (some "generation failed"))).1.error =
      "generation failed" ∧
    filledState.languages = [] ∧
    (generateCV filledState (LookupOutcome.ok demoResult)
        (GenOutcome.httpError (some "generation failed"))).1.languages ≠
      filledState.languages := by
  decide

/-- C2 (amended): every attempt that fails at the Submitting stage leaves
`showCV` unchanged (so it remains false) and stores the failure message;
when the lookup itself fails, `githubData`, `topProjects` and `languages`
are unchanged from before the attempt; but when the lookup succeeds and
the generation call fails, the three fetched fields are retained from the
successful lookup. -/
theorem generateCV_failure_spec (s : ComponentState)
    (hn : s.formData.name ≠ "") (he : s.formData.email ≠ "")
    (hed : s.formData.education ≠ "") (hu : s.formData.university ≠ "")
    (hg : s.formData.githubUsername ≠ "") :
    (∀ e go,
      (generateCV s (LookupOutcome.httpError e) go).1 =
        { s with isLoading := false
                 error := jsOr e "Failed to fetch GitHub data" }) ∧
    (∀ m go,
      (generateCV s (LookupOutcome.netError m) go).1 =
        { s with isLoading := false, error := m }) ∧
    (∀ d e,
      (generateCV s (LookupOutcome.ok d) (GenOutcome.httpError e)).1 =
        { s with githubData := some d.user_data
                 topProjects := d.top_repos
                 languages := d.languages
                 isLoading := false
                 error := jsOr e "Failed to generate CV" }) ∧
    (∀ d m,
      (generateCV s (LookupOutcome.ok d) (GenOutcome.netError m)).1 =
        { s with githubData := some d.user_data
                 topProjects := d.top_repos
                 languages := d.languages
                 isLoading := false
                 error := m }) := by
  refine ⟨?_, ?_, ?_, ?_⟩ <;> intros <;>
    simp [generateCV, fetchGitHubData, hn, he, hed, hu, hg]

/-- Witness for C2 (amended): a concrete attempt failing at the lookup
with a network error stores the message and changes nothing else. -/
theorem generateCV_failure_spec_witness :
    (generateCV filledState (LookupOutcome.netError "offline")
        GenOutcome.ok).1 =
      { filledState with isLoading := false, error := "offline" } :=
  (generateCV_failure_spec filledState (by decide) (by decide) (by decide)
    (by decide) (by decide)).2.1 "offline" GenOutcome.ok

/-- C7: in every generation attempt, the request trace is either empty,
or just the profile lookup, or the profile lookup followed by the
document-generation request, and the latter shape occurs only when the
lookup outcome is a success; when the lookup does not succeed, no
document-generation request appears in the trace at all. -/
theorem generateCV_sequential_spec (s : ComponentState) (lo : LookupOutcome)
    (go : GenOutcome) :
    ((generateCV s lo go).2 = [] ∨
     (generateCV s lo go).2 =
       [Request.profileLookup s.formData.githubUsername] ∨
     (∃ d, lo = LookupOutcome.ok d ∧
       (generateCV s lo go).2 =
         [Request.profileLookup s.formData.githubUsername,
          Request.generateDoc s.formData d])) ∧
    ((∀ d, lo ≠ LookupOutcome.ok d) →
      ∀ p g, Request.generateDoc p g ∉ (generateCV s lo go).2) := by
  by_cases hv : s.formData.name = "" ∨ s.formData.email = "" ∨
      s.formData.education = "" ∨ s.formData.university = ""
  · constructor
    · left
      simp only [generateCV]
      rw [if_pos hv]
    · intro _ p g
      simp only [generateCV]
      rw [if_pos hv]
      simp
  · push_neg at hv
    obtain ⟨hn, he, hed, hu⟩ := hv
    by_cases hg : s.formData.githubUsername = ""
    · constructor
      · left
        simp [generateCV, fetchGitHubData, hn, he, hed, hu, hg]
      · intro _ p g
        simp [generateCV, fetchGitHubData, hn, he, hed, hu, hg]
    · cases lo with
      | ok d =>
          refine ⟨Or.inr (Or.inr ⟨d, rfl, ?_⟩), ?_⟩
          · cases go <;>
              simp [generateCV, fetchGitHubData, hn, he, hed, hu, hg]
          · intro hno
            exact absurd rfl (hno d)
      | httpError e =>
          refine ⟨Or.inr (Or.inl ?_), ?_⟩
          · simp [generateCV, fetchGitHubData, hn, he, hed, hu, hg]
          · intro _ p g
            simp [generateCV, fetchGitHubData, hn, he, hed, hu, hg]
      | netError m =>
          refine ⟨Or.inr (Or.inl ?_), ?_⟩
          · simp [generateCV, fetchGitHubData, hn, he, hed, hu, hg]
          · intro _ p g
            simp [generateCV, fetchGitHubData, hn, he, hed, hu, hg]

/-- Witness for C7: with a failed lookup no document-generation request
is issued. -/
theorem generateCV_sequential_spec_witness :
    Request.generateDoc filledForm demoResult ∉
      (generateCV filledState (LookupOutcome.netError "offline")
        GenOutcome.ok).2 :=
  (generateCV_sequential_spec filledState (LookupOutcome.netError "offline")
      GenOutcome.ok).2
    (fun _ h => LookupOutcome.noConfusion h) filledForm demoResult

/-- C8: when the required fields and the username are non-empty, a
successful lookup followed by a successful generation call sets `showCV`
to true, and the rendered preview displays the submitted name, the
submitted email, and the top-5 language list derived from the fetched
language-frequency mapping. -/
theorem generateCV_success_spec (s : ComponentState) (d : GitHubResult)
    (hn : s.formData.name ≠ "") (he : s.formData.email ≠ "")
    (hed : s.formData.education ≠ "") (hu : s.formData.university ≠ "")
    (hg : s.formData.githubUsername ≠ "") :
    (generateCV s (LookupOutcome.ok d) GenOutcome.ok).1.showCV = true ∧
    (renderCV (generateCV s (LookupOutcome.ok d) GenOutcome.ok).1).headerName =
      s.formData.name ∧
    (renderCV (generateCV s (LookupOutcome.ok d) GenOutcome.ok).1).email =
      s.formData.email ∧
    (renderCV (generateCV s (LookupOutcome.ok d) GenOutcome.ok).1).topLanguages =
      getTopLanguages d.languages := by
  refine ⟨?_, ?_, ?_, ?_⟩ <;>
    simp [generateCV, fetchGitHubData, renderCV, hn, he, hed, hu, hg]

/-- Witness for C8: the filled state with the demo lookup result reaches
the preview and shows the submitted name, email and derived languages. -/
theorem generateCV_success_spec_witness :
    (generateCV filledState (LookupOutcome.ok demoResult)
        GenOutcome.ok).1.showCV = true ∧
    (renderCV (generateCV filledState (LookupOutcome.ok demoResult)
        GenOutcome.ok).1).headerName = filledState.formData.name ∧
    (renderCV (generateCV filledState (LookupOutcome.ok demoResult)
        GenOutcome.ok).1).email = filledState.formData.email ∧
    (renderCV (generateCV filledState (LookupOutcome.ok demoResult)
        GenOutcome.ok).1).topLanguages =
      getTopLanguages demoResult.languages :=
  generateCV_success_spec filledState demoResult (by decide) (by decide)
    (by decide) (by decide) (by decide)

/-- If a generation attempt from a non-preview state ends with `showCV`
true, then the lookup and the generation call both succeeded and the
fetched fields hold exactly the lookup result's components. -/
theorem generateCV_showCV_true (s : ComponentState) (lo : LookupOutcome)
    (go : GenOutcome) (hf : s.showCV = false)
    (hcv : (generateCV s lo go).1.showCV = true) :
    ∃ d, lo = LookupOutcome.ok d ∧ go = GenOutcome.ok ∧
      (generateCV s lo go).1.githubData = some d.user_data ∧
      (generateCV s lo go).1.topProjects = d.top_repos ∧
      (generateCV s lo go).1.languages = d.languages := by
  by_cases hv : s.formData.name = "" ∨ s.formData.email = "" ∨
      s.formData.education = "" ∨ s.formData.university = ""
  · exfalso
    simp only [generateCV] at hcv
    rw [if_pos hv] at hcv
    simp [hf] at hcv
  · push_neg at hv
    obtain ⟨hn, he, hed, hu⟩ := hv
    by_cases hg : s.formData.githubUsername = ""
    · exfalso
      simp [generateCV, fetchGitHubData, hn, he, hed, hu, hg, hf] at hcv
    · cases lo with
      | ok d =>
          cases go with
          | ok =>
              refine ⟨d, rfl, rfl, ?_, ?_, ?_⟩ <;>
                simp [generateCV, fetchGitHubData, hn, he, hed, hu, hg]
          | httpError e =>
              exfalso
              simp [generateCV, fetchGitHubData, hn, he, hed, hu, hg, hf]
                at hcv
          | netError m =>
              exfalso
              simp [generateCV, fetchGitHubData, hn, he, hed, hu, hg, hf]
                at hcv
      | httpError e =>
          exfalso
          simp [generateCV, fetchGitHubData, hn, he, hed, hu, hg, hf] at hcv
      | netError m =>
          exfalso
          simp [generateCV, fetchGitHubData, hn, he, hed, hu, hg, hf] at hcv

/-- C3: in every reachable state, if the preview phase is active then the
event history contains a generation attempt whose profile lookup and
generation call both succeeded, and `githubData`, `topProjects` and
`languages` hold exactly the components returned by that successful
lookup; before such a successful fetch the preview phase is unreachable. -/
theorem reachable_preview_spec (tr : List Event) (s : ComponentState)
    (h : Reachable tr s) :
    s.showCV = true →
    ∃ d : GitHubResult,
      Event.generate (LookupOutcome.ok d) GenOutcome.ok ∈ tr ∧
      s.githubData = some d.user_data ∧
      s.topProjects = d.top_repos ∧
      s.languages = d.languages := by
  induction h with
  | init =>
      intro hcv
      exact absurd hcv (by decide)
  | @change tr s n v hr hf ih =>
      intro hcv
      simp [handleChange, hf] at hcv
  | @generate tr s lo go hr hf ih =>
      intro hcv
      obtain ⟨d, rfl, rfl, h1, h2, h3⟩ := generateCV_showCV_true s lo go hf hcv
      exact ⟨d, List.mem_cons_self _ _, h1, h2, h3⟩
  | @back tr s hr hf ih =>
      intro hcv
      simp at hcv

/-- State after typing the name into the fresh form. -/
def sessionState1 : ComponentState :=
  handleChange initialState FormField.name "Ada Lovelace"

/-- State after typing the email. -/
def sessionState2 : ComponentState :=
  handleChange sessionState1 FormField.email "ada@example.com"

/-- State after typing the degree. -/
def sessionState3 : ComponentState :=
  handleChange sessionState2 FormField.education "BSc Computer Science"

/-- State after typing the university. -/
def sessionState4 : ComponentState :=
  handleChange sessionState3 FormField.university "Cambridge"

/-- State after typing the GitHub username. -/
def sessionState5 : ComponentState :=
  handleChange sessionState4 FormField.githubUsername "ada"

/-- State after a fully successful generation attempt. -/
def sessionState6 : ComponentState :=
  (generateCV sessionState5 (LookupOutcome.ok demoResult) GenOutcome.ok).1

/-- The event history of that session, most recent first. -/
def sessionTrace : List Event :=
  [Event.generate (LookupOutcome.ok demoResult) GenOutcome.ok,
   Event.change FormField.githubUsername "ada",
   Event.change FormField.university "Cambridge",
   Event.change FormField.education "BSc Computer Science",
   Event.change FormField.email "ada@example.com",
   Event.change FormField.name "Ada Lovelace"]

/-- The session state is reachable under its trace. -/
theorem sessionState6_reachable : Reachable sessionTrace sessionState6 := by
  unfold sessionTrace sessionState6 sessionState5 sessionState4 sessionState3
    sessionState2 sessionState1
  exact Reachable.generate
    (Reachable.change
      (Reachable.change
        (Reachable.change
          (Reachable.change
            (Reachable.change Reachable.init (by decide))
            (by decide))
          (by decide))
        (by decide))
      (by decide))
    (by decide)

/-- Witness for C3: the concrete session ends in the preview phase, its
trace contains the successful generation attempt, and the fetched fields
hold the lookup result's components. -/
theorem reachable_preview_spec_witness :
    ∃ d : GitHubResult,
      Event.generate (LookupOutcome.ok d) GenOutcome.ok ∈ sessionTrace ∧
      sessionState6.githubData = some d.user_data ∧
      sessionState6.topProjects = d.top_repos ∧
      sessionState6.languages = d.languages :=
  reachable_preview_spec sessionTrace sessionState6 sessionState6_reachable
    (by decide)
